import Mathlib

/-!
Shallow embedding of the ingestion / import pipeline of `InputForm.tsx`
(flashcard generation form): the Wikipedia-URL source validator, the title
deriver, the JSON (structured) importer, the CSV (tabular) importer, and the
submit orchestrator, together with proofs settling the specification claims.

JavaScript string primitives (`trim`, `split`, `toLowerCase`, the two quote
regexes) are modelled character-exactly over `List Char`; `JSON.parse` output
is modelled by the inductive `JValue`; the platform `URL` parser is modelled
for http/https URLs without userinfo or port; `uuidv4` and the clock are
nondeterministic externals, passed in as an id supply `ids : Nat → String`
and a clock reading `now : Nat`.
-/

/-- Whitespace characters recognised by the model of JavaScript `trim`
(the ASCII whitespace relevant to the inputs at hand). -/
def isWS (c : Char) : Bool :=
  c == ' ' || c == '\t' || c == '\n' || c == '\r'

/-- Left trim: drop leading whitespace. -/
def trimL (l : List Char) : List Char := l.dropWhile isWS

/-- Right trim: drop trailing whitespace. -/
def trimR : List Char → List Char
  | [] => []
  | a :: t =>
    match trimR t with
    | [] => if isWS a then [] else [a]
    | b :: r => a :: b :: r

/-- Model of JavaScript `String.prototype.trim`. -/
def jsTrim (l : List Char) : List Char := trimR (trimL l)

/-- The trim operation on `String`. -/
def jsTrimS (s : String) : String := ⟨jsTrim s.data⟩

/-- Split a character list at every occurrence of the separator character;
models JavaScript `String.prototype.split` with a one-character separator
(always returns at least one piece). -/
def splitChar (c : Char) : List Char → List (List Char)
  | [] => [[]]
  | a :: t =>
    match splitChar c t with
    | [] => [[]]
    | h :: r => if a == c then [] :: h :: r else (a :: h) :: r

/-- The split operation on `String`. -/
def jsSplit (c : Char) (s : String) : List String :=
  (splitChar c s.data).map fun l => ⟨l⟩

/-- Model of JavaScript `toLowerCase` (ASCII). -/
def toLowerS (s : String) : String := ⟨s.data.map Char.toLower⟩

/-- Model of the header cleanup regex (replace all of `/"/g` by the empty
string): remove every double-quote character. -/
def removeQuotes (s : String) : String := ⟨s.data.filter fun c => c ≠ '"'⟩

/-- Model of the field cleanup regex (replace all of the anchored quote
pattern by the empty string): remove one leading and one trailing
double-quote character, when present. -/
def stripEdgeQuotes (s : String) : String :=
  let l := match s.data with
    | '"' :: t => t
    | l => l
  ⟨if l.getLast? = some '"' then l.dropLast else l⟩

/-- Whether `needle` occurs at the start of the haystack. -/
def isPre : List Char → List Char → Bool
  | [], _ => true
  | _ :: _, [] => false
  | a :: s, b :: t => a == b && isPre s t

/-- Whether `needle` occurs somewhere in the haystack (substring containment,
as in JavaScript `String.prototype.includes`). -/
def containsSub (needle : List Char) : List Char → Bool
  | [] => isPre needle []
  | b :: t => isPre needle (b :: t) || containsSub needle t

/-- Substring containment on `String`. -/
def containsSubS (needle hay : String) : Bool := containsSub needle.data hay.data

/-- Model of the platform `URL` parser, restricted to http/https URLs with a
host and no userinfo or port: returns `(hostname, pathname)` with the
hostname lower-cased and the pathname defaulting to `"/"`, or `none` when
the string is not such a URL. -/
def parseURL (url : String) : Option (String × String) :=
  let d := url.data
  let afterScheme :=
    if isPre "https://".data d then some (d.drop 8)
    else if isPre "http://".data d then some (d.drop 7)
    else none
  match afterScheme with
  | none => none
  | some r =>
    let host := r.takeWhile fun c => !(c == '/' || c == '?' || c == '#')
    let path := (r.drop host.length).takeWhile fun c => !(c == '?' || c == '#')
    if host.isEmpty then none
    else some (⟨host.map Char.toLower⟩, if path.isEmpty then "/" else ⟨path⟩)

/-- Model of `isValidWikipediaUrl` from `InputForm.tsx`: the parsed hostname must
contain `"wikipedia.org"` as a substring and the pathname must be longer
than one character; unparsable strings yield `false`. -/
def isValidWikipediaUrl (url : String) : Bool :=
  match parseURL url with
  | none => false
  | some (hostname, pathname) =>
    containsSubS "wikipedia.org" hostname && pathname.length > 1

/-- Model of `extractTitleFromUrl` from `InputForm.tsx`: last path segment with
underscores replaced by spaces; fixed fallback on parse failure. -/
def extractTitleFromUrl (url : String) : String :=
  match parseURL url with
  | none => "Wikipedia Flashcards"
  | some (_, pathname) =>
    let pathParts := jsSplit '/' pathname
    let lastPart := (pathParts.getLast?).getD ""
    ⟨lastPart.data.map fun c => if c == '_' then ' ' else c⟩

/-- A flashcard (`Flashcard` from `types`): id, question, answer. -/
structure Flashcard where
  id : String
  question : String
  answer : String
deriving DecidableEq, Repr

/-- Model of the values produced by `JSON.parse`. -/
inductive JValue where
  | null
  | bool (b : Bool)
  | num (n : Int)
  | str (s : String)
  | arr (items : List JValue)
  | obj (fields : List (String × JValue))

/-- Model of a JavaScript `Date` value as constructed by the importers:
either `new Date(v)` from a content value `v`, or `new Date()` at clock
reading `t`. -/
inductive JDate where
  | ofValue (v : JValue)
  | importTime (t : Nat)

/-- A flashcard collection (`FlashcardSet` from `types`). -/
structure FlashcardSet where
  title : String
  source : String
  cards : List Flashcard
  createdAt : JDate

/-- JavaScript truthiness of a parsed JSON value. -/
def truthy : JValue → Bool
  | .null => false
  | .bool b => b
  | .num n => n ≠ 0
  | .str s => s ≠ ""
  | .arr _ => true
  | .obj _ => true

/-- Property access `v.key` on a parsed JSON value: `none` models
`undefined` (absent field or non-object receiver). -/
def getField (v : JValue) (key : String) : Option JValue :=
  match v with
  | .obj fields => fields.lookup key
  | _ => none

/-- Truthiness of `v.key`, with `undefined` falsy. -/
def truthyField (v : JValue) (key : String) : Bool :=
  match getField v key with
  | none => false
  | some w => truthy w

mutual

/-- Model of JavaScript `String(x)` coercion on parsed JSON values. -/
def jsToString : JValue → String
  | .null => "null"
  | .bool b => cond b "true" "false"
  | .num n => toString n
  | .str s => s
  | .arr items => jsToStringList items
  | .obj _ => "[object Object]"

/-- Array-to-string: elements joined by commas. -/
def jsToStringList : List JValue → String
  | [] => ""
  | [x] => jsToString x
  | x :: y :: t => jsToString x ++ "," ++ jsToStringList (y :: t)

end

/-- Validity check applied to each imported JSON card record:
`!card.question || !card.answer` throws, so a record passes exactly when
both fields are present and truthy. -/
def cardOK (card : JValue) : Bool :=
  truthyField card "question" && truthyField card "answer"

/-- The message thrown for an invalid JSON card record at array index
`index` (JavaScript array indices are 0-based). -/
def invalidCardMsg (index : Nat) : String :=
  "Invalid card at index " ++ toString index ++ ": missing question or answer"

/-- Model of the `data.cards.map(...)` validation loop of
`handleJSONFileChange`: the first invalid record aborts with its message;
otherwise each record becomes a `Flashcard`, with `card.id || uuidv4()`
modelled by drawing `ids index` when the `id` field of the record is falsy. -/
def validateCards (ids : Nat → String) : List JValue → Nat → Except String (List Flashcard)
  | [], _ => .ok []
  | card :: rest, index =>
    if cardOK card then
      match validateCards ids rest (index + 1) with
      | .error e => .error e
      | .ok tail =>
        .ok ({ id := if truthyField card "id" then
                       jsToString ((getField card "id").getD .null)
                     else ids index,
               question := jsToString ((getField card "question").getD .null),
               answer := jsToString ((getField card "answer").getD .null) } :: tail)
    else .error (invalidCardMsg index)

/-- The message thrown when `data.cards` is missing, falsy, or not an
array. -/
def invalidJSONMsg : String := "Invalid JSON format: missing or invalid cards array"

/-- Model of the body of `handleJSONFileChange` after a successful
`JSON.parse`: `data` is the parsed value, `now` the clock reading, `ids`
the `uuidv4` supply. `data.cards` must be an array (a falsy or non-array
value throws the same message on one of the two checks); `title` defaults
when `data.title` is falsy; `createdAt` is `new Date(data.createdAt)` when
that field is truthy and `new Date()` otherwise. -/
def importJSONData (now : Nat) (ids : Nat → String) (data : JValue) : Except String FlashcardSet :=
  match getField data "cards" with
  | some (.arr cardsV) =>
    match validateCards ids cardsV 0 with
    | .error e => .error e
    | .ok validatedCards =>
      .ok { title := if truthyField data "title" then
                       jsToString ((getField data "title").getD .null)
                     else "Imported JSON Flashcards"
            source := "JSON Import"
            cards := validatedCards
            createdAt := match getField data "createdAt" with
              | some v => if truthy v then .ofValue v else .importTime now
              | none => .importTime now }
  | _ => .error invalidJSONMsg

/-- Non-empty lines of the CSV text:
split the content at every newline and keep the lines whose trim is
non-empty (truthy). -/
def csvLines (content : String) : List String :=
  (jsSplit '\n' content).filter fun line => jsTrimS line ≠ ""

/-- Normalised header names of the CSV text:
split the first line at commas, then quote-strip, trim and lower-case each
column name. -/
def csvHeaders (content : String) : List String :=
  (jsSplit ',' ((csvLines content).headD "")).map fun h =>
    toLowerS (jsTrimS (removeQuotes h))

/-- Per-field cleanup of a CSV data row field:
strip one symmetric pair of edge quotes, then trim. -/
def parseField (v : String) : String := jsTrimS (stripEdgeQuotes v)

/-- Model of the data-row loop of `handleCSVFileChange`: row `i` (1-based
over the filtered lines, the header being line 0) is split and cleaned; a
row with too few fields is skipped (`continue`), a row whose question or
answer field is empty is skipped (`if (question && answer)`), and every
accepted row receives a fresh id `ids i`. -/
def buildCards (ids : Nat → String) (questionIndex answerIndex : Nat) :
    List String → Nat → List Flashcard
  | [], _ => []
  | line :: rest, i =>
    let values := (jsSplit ',' line).map parseField
    if values.length ≤ max questionIndex answerIndex then
      buildCards ids questionIndex answerIndex rest (i + 1)
    else
      let question := values.getD questionIndex ""
      let answer := values.getD answerIndex ""
      if question ≠ "" ∧ answer ≠ "" then
        { id := ids i, question := question, answer := answer }
          :: buildCards ids questionIndex answerIndex rest (i + 1)
      else buildCards ids questionIndex answerIndex rest (i + 1)

/-- The message thrown when the header lacks an exact `question` or
`answer` column. -/
def csvColumnsMsg : String := "CSV file must contain \"Question\" and \"Answer\" columns"

/-- The message thrown when fewer than two non-empty lines are present. -/
def csvTooShortMsg : String := "CSV file must contain at least a header row and one data row"

/-- The message thrown when no data row was accepted. -/
def csvNoCardsMsg : String := "No valid flashcards found in CSV file"

/-- Model of the body of `handleCSVFileChange` after the file text has been
read: column indices are located by exact equality on normalised header
names (a findIndex with strict equality), defective rows are skipped by
`buildCards`, and zero accepted rows throws. -/
def importCSVData (now : Nat) (ids : Nat → String) (content : String) : Except String FlashcardSet :=
  let lines := csvLines content
  if lines.length < 2 then .error csvTooShortMsg
  else
    match (csvHeaders content).findIdx? (· == "question"),
          (csvHeaders content).findIdx? (· == "answer") with
    | some questionIndex, some answerIndex =>
      let cards := buildCards ids questionIndex answerIndex (lines.drop 1) 1
      if cards.isEmpty then .error csvNoCardsMsg
      else .ok { title := "Imported CSV Flashcards"
                 source := "CSV Import"
                 cards := cards
                 createdAt := .importTime now }
    | _, _ => .error csvColumnsMsg

/-- Result of the document fetcher (`RawExternalContent`). -/
structure WikiContent where
  title : String
  content : String

/-- A thrown JavaScript value: an `Error` instance carrying a message, or
anything else (`error instanceof Error` fails). -/
inductive Thrown where
  | errObj (message : String)
  | other

/-- The message the catch block extracts from a thrown value:
the message of an `Error` instance, a fixed fallback text otherwise. -/
def thrownMessage : Thrown → String
  | .errObj m => m
  | .other => "Unknown error occurred"

/-- An observable call made by `handleSubmit` on its caller-provided
setters. -/
inductive Ev where
  | callSetError (m : Option String)
  | callSetLoading (b : Bool)
  | callSetFlashcardSet (s : FlashcardSet)

/-- Inputs and collaborator oracle of one submit attempt: form state
(`isUrlInput`, `input`, `useMockMode`), the credential
(`config.defaultApiKey`, `none` modelling an absent value), the outcome
each collaborator would produce if called, and the clock reading. -/
structure SubmitEnv where
  isUrlInput : Bool
  input : String
  apiKey : Option String
  useMockMode : Bool
  fetchResult : Except Thrown WikiContent
  extractResult : Except Thrown (List Flashcard)
  now : Nat

/-- Model of `!config.defaultApiKey || !config.defaultApiKey.trim()`: the credential
is usable exactly when present, non-empty and not whitespace-only. -/
def apiKeyPresent : Option String → Bool
  | none => false
  | some k => k ≠ "" && jsTrimS k ≠ ""

/-- The events of the `try` block of `handleSubmit` (entered after
`setLoading(true)`), excluding the `finally`. -/
def submitBody (env : SubmitEnv) : List Ev :=
  if env.isUrlInput then
    if !isValidWikipediaUrl env.input then
      [.callSetError (some "Please enter a valid Wikipedia URL"), .callSetLoading false]
    else
      match env.fetchResult with
      | .error e => [.callSetError (some ("Error: " ++ thrownMessage e))]
      | .ok _wiki =>
        match env.extractResult with
        | .error e => [.callSetError (some ("Error: " ++ thrownMessage e))]
        | .ok flashcards =>
          [.callSetFlashcardSet { title := extractTitleFromUrl env.input
                                  source := env.input
                                  cards := flashcards
                                  createdAt := .importTime env.now }]
  else
    match env.extractResult with
    | .error e => [.callSetError (some ("Error: " ++ thrownMessage e))]
    | .ok flashcards =>
      [.callSetFlashcardSet { title := "Custom Text Flashcards"
                              source := "Custom text"
                              cards := flashcards
                              createdAt := .importTime env.now }]

/-- Model of `handleSubmit` as the sequence of observable setter calls of
one attempt: `setError(null)` first, the two precondition checks (empty
input, absent credential) return before `setLoading(true)`, and the
`finally` appends `setLoading(false)` after every path through the `try`
block (including the early return on an invalid URL, which has already
called `setLoading(false)` itself). -/
def handleSubmit (env : SubmitEnv) : List Ev :=
  Ev.callSetError none ::
  (if jsTrimS env.input = "" then
     [Ev.callSetError (some "Please enter a Wikipedia URL or text")]
   else if apiKeyPresent env.apiKey = false then
     [Ev.callSetError (some "Please set your API key in LLM Settings")]
   else
     Ev.callSetLoading true :: (submitBody env ++ [Ev.callSetLoading false]))

/-- The loading state seen by the caller after a trace of setter calls,
starting from `false`. -/
def finalLoading (evs : List Ev) : Bool :=
  evs.foldl (fun acc e => match e with | .callSetLoading b => b | _ => acc) false

/-- Whether a trace ever asserts the loading signal. -/
def assertsLoading (evs : List Ev) : Bool :=
  evs.any fun e => match e with | .callSetLoading true => true | _ => false

/-- The non-null error messages delivered along a trace, in order. -/
def errorsOf (evs : List Ev) : List String :=
  evs.filterMap fun e => match e with | .callSetError (some m) => some m | _ => none

/-- The id-independent content of a card: its question and answer texts. -/
def cardText (c : Flashcard) : String × String := (c.question, c.answer)

theorem trimL_head {l : List Char} {a : Char} {t : List Char}
    (h : trimL l = a :: t) : isWS a = false := by
  induction l with
  | nil => simp [trimL] at h
  | cons b bs ih =>
    by_cases hb : isWS b
    · exact ih (by simpa [trimL, List.dropWhile_cons, hb] using h)
    · rw [trimL, List.dropWhile_cons] at h
      simp only [hb] at h
      simp only [Bool.false_eq_true, if_false, List.cons.injEq] at h
      rw [← h.1]
      simpa using hb

theorem trimR_cons_of_not_ws (a : Char) (t : List Char) (h : isWS a = false) :
    ∃ r, trimR (a :: t) = a :: r := by
  rw [trimR]
  cases htr : trimR t with
  | nil => exact ⟨[], by simp [h]⟩
  | cons b r => exact ⟨b :: r, rfl⟩

theorem jsTrim_stable {l : List Char} (h : jsTrim l ≠ []) :
    jsTrim (jsTrim l) ≠ [] := by
  cases hL : trimL l with
  | nil => exact absurd (by simp [jsTrim, hL, trimR]) h
  | cons a t =>
    have ha : isWS a = false := trimL_head hL
    obtain ⟨r, hr⟩ := trimR_cons_of_not_ws a t ha
    have hjl : jsTrim l = a :: r := by rw [jsTrim, hL, hr]
    rw [hjl]
    have hL2 : trimL (a :: r) = a :: r := by
      simp [trimL, List.dropWhile_cons, ha]
    obtain ⟨r2, hr2⟩ := trimR_cons_of_not_ws a r ha
    rw [jsTrim, hL2, hr2]
    simp

theorem jsTrimS_stable {s : String} (h : jsTrimS s ≠ "") :
    jsTrimS (jsTrimS s) ≠ "" := by
  intro hc
  have hd : jsTrim (jsTrim s.data) = [] := congrArg String.data hc
  have hne : jsTrim s.data ≠ [] := by
    intro h0
    exact h (show (⟨jsTrim s.data⟩ : String) = "" by rw [h0])
  exact jsTrim_stable hne hd

theorem trim_stable_of_getD {l : List String} {k : Nat}
    (hk : k < (l.map parseField).length)
    (hne : (l.map parseField).getD k "" ≠ "") :
    jsTrimS ((l.map parseField).getD k "") ≠ "" := by
  rw [List.getD_eq_getElem _ _ hk] at hne ⊢
  rw [List.getElem_map] at hne ⊢
  exact jsTrimS_stable hne

theorem buildCards_trim_ne (ids : Nat → String) (qi ai : Nat) :
    ∀ (rows : List String) (i : Nat) (c : Flashcard),
      c ∈ buildCards ids qi ai rows i →
      jsTrimS c.question ≠ "" ∧ jsTrimS c.answer ≠ "" := by
  intro rows
  induction rows with
  | nil => intro i c h; simp [buildCards] at h
  | cons line rest ih =>
    intro i c h
    simp only [buildCards] at h
    split at h
    · exact ih _ _ h
    · rename_i hlen
      split at h
      · rename_i hqa
        rcases List.mem_cons.1 h with hc | hc
        · subst hc
          have hmax : max qi ai < ((jsSplit ',' line).map parseField).length :=
            Nat.lt_of_not_le hlen
          exact ⟨trim_stable_of_getD (Nat.lt_of_le_of_lt (Nat.le_max_left qi ai) hmax) hqa.1,
                 trim_stable_of_getD (Nat.lt_of_le_of_lt (Nat.le_max_right qi ai) hmax) hqa.2⟩
        · exact ih _ _ hc
      · exact ih _ _ h

theorem buildCards_map_cardText (ids₁ ids₂ : Nat → String) (qi ai : Nat) :
    ∀ (rows : List String) (i : Nat),
      (buildCards ids₁ qi ai rows i).map cardText
        = (buildCards ids₂ qi ai rows i).map cardText := by
  intro rows
  induction rows with
  | nil => intro i; rfl
  | cons line rest ih =>
    intro i
    simp only [buildCards]
    split
    · exact ih _
    · split
      · simp only [List.map_cons]
        exact congrArg₂ List.cons rfl (ih _)
      · exact ih _

theorem buildCards_length_eq (ids₁ ids₂ : Nat → String) (qi ai : Nat)
    (rows : List String) (i : Nat) :
    (buildCards ids₁ qi ai rows i).length = (buildCards ids₂ qi ai rows i).length := by
  have h := buildCards_map_cardText ids₁ ids₂ qi ai rows i
  have h₁ := List.length_map (buildCards ids₁ qi ai rows i) cardText
  have h₂ := List.length_map (buildCards ids₂ qi ai rows i) cardText
  rw [← h₁, ← h₂, h]

theorem validateCards_agree (ids₁ ids₂ : Nat → String) :
    ∀ (cs : List JValue) (n : Nat),
      (∀ e, validateCards ids₁ cs n = .error e → validateCards ids₂ cs n = .error e) ∧
      (∀ l₁ l₂, validateCards ids₁ cs n = .ok l₁ → validateCards ids₂ cs n = .ok l₂ →
        l₁.map cardText = l₂.map cardText) := by
  intro cs
  induction cs with
  | nil =>
    intro n
    refine ⟨fun e he => by simp [validateCards] at he, fun l₁ l₂ h₁ h₂ => ?_⟩
    simp only [validateCards, Except.ok.injEq] at h₁ h₂
    rw [← h₁, ← h₂]
  | cons card rest ih =>
    intro n
    by_cases hok : cardOK card
    · constructor
      · intro e he
        simp only [validateCards, hok, if_true] at he ⊢
        cases h1 : validateCards ids₁ rest (n + 1) with
        | error e' =>
          rw [h1] at he
          rw [(ih (n + 1)).1 e' h1]
          exact he
        | ok tail => rw [h1] at he; exact absurd he (by simp)
      · intro l₁ l₂ h₁ h₂
        simp only [validateCards, hok, if_true] at h₁ h₂
        cases hr1 : validateCards ids₁ rest (n + 1) with
        | error e' => rw [hr1] at h₁; exact absurd h₁ (by simp)
        | ok tail₁ =>
          cases hr2 : validateCards ids₂ rest (n + 1) with
          | error e' => rw [hr2] at h₂; exact absurd h₂ (by simp)
          | ok tail₂ =>
            rw [hr1] at h₁
            rw [hr2] at h₂
            simp only [Except.ok.injEq] at h₁ h₂
            rw [← h₁, ← h₂]
            simp only [List.map_cons]
            exact congrArg₂ List.cons rfl ((ih (n + 1)).2 tail₁ tail₂ hr1 hr2)
    · constructor
      · intro e he
        simp only [validateCards, hok, if_false] at he ⊢
        exact he
      · intro l₁ l₂ h₁ _
        simp only [validateCards, hok, if_false] at h₁
        exact absurd h₁ (by simp)

/-- Claim C1, counterexample: the Source Validator accepts
`https://evilwikipedia.org/wiki/Cat`, whose hostname `evilwikipedia.org`
merely contains `wikipedia.org` as a substring, refuting the exact-match
allow-list policy. -/
theorem c1_counterexample :
    isValidWikipediaUrl "https://evilwikipedia.org/wiki/Cat" = true := rfl

/-- Claim C1 (amended): the Source Validator rejects unparsable strings
and otherwise accepts exactly the URLs whose hostname contains
`wikipedia.org` as a substring with a pathname longer than one character;
hostname containment, not an exact-match allow-list, is what is checked. -/
theorem c1_amended_validator (url : String) :
    (parseURL url = none → isValidWikipediaUrl url = false) ∧
    ∀ host path, parseURL url = some (host, path) →
      (isValidWikipediaUrl url = true ↔
        containsSubS "wikipedia.org" host = true ∧ 1 < path.length) := by
  constructor
  · intro h
    simp [isValidWikipediaUrl, h]
  · intro host path h
    simp [isValidWikipediaUrl, h, Bool.and_eq_true, decide_eq_true_eq]

/-- Witness for `c1_amended_validator` at a concrete accepted URL. -/
theorem c1_witness :
    isValidWikipediaUrl "https://en.wikipedia.org/wiki/Cat" = true :=
  ((c1_amended_validator "https://en.wikipedia.org/wiki/Cat").2
    "en.wikipedia.org" "/wiki/Cat" rfl).mpr ⟨rfl, by decide⟩

/-- Claim C2, counterexample: a header column named `My Question` contains
`question` as a proper substring, yet the tabular importer rejects the
file — columns are located by exact equality, not substring match. -/
theorem c2_counterexample :
    importCSVData 0 (fun _ => "id") "My Question,Answer\nq,a" = .error csvColumnsMsg := rfl

/-- Claim C2 (amended): the tabular importer locates the question and
answer columns by exact equality on the normalised (quote-stripped,
trimmed, lower-cased) header names; when either exact lookup fails, the
whole import fails with one message naming both required column names. -/
theorem c2_amended_exact_header (now : Nat) (ids : Nat → String) (content : String)
    (hlen : ¬ (csvLines content).length < 2)
    (hmiss : (csvHeaders content).findIdx? (· == "question") = none ∨
             (csvHeaders content).findIdx? (· == "answer") = none) :
    importCSVData now ids content = .error csvColumnsMsg ∧
    containsSubS "Question" csvColumnsMsg = true ∧
    containsSubS "Answer" csvColumnsMsg = true := by
  refine ⟨?_, rfl, rfl⟩
  simp only [importCSVData, if_neg hlen]
  cases hq : (csvHeaders content).findIdx? (· == "question") with
  | none =>
    cases ha : (csvHeaders content).findIdx? (· == "answer") with
    | none => rfl
    | some ai => rfl
  | some qi =>
    cases ha : (csvHeaders content).findIdx? (· == "answer") with
    | none => rfl
    | some ai =>
      rcases hmiss with h | h
      · simp [hq] at h
      · simp [ha] at h

/-- Witness for `c2_amended_exact_header` at a concrete header lacking
both columns. -/
theorem c2_witness :
    importCSVData 0 (fun _ => "u") "Title,Description\nReact,lib" = .error csvColumnsMsg ∧
    containsSubS "Question" csvColumnsMsg = true ∧
    containsSubS "Answer" csvColumnsMsg = true :=
  c2_amended_exact_header 0 (fun _ => "u") "Title,Description\nReact,lib"
    (by decide) (Or.inl (by decide))

/-- Claim C3, counterexample: the data row `onlyone` (row number 2) has
fewer fields than the higher required column index, yet the import
succeeds, silently skipping that row — no error identifies the row. -/
theorem c3_counterexample :
    importCSVData 0 (fun n => toString n) "Question,Answer\nonlyone\nq2,a2" =
      .ok { title := "Imported CSV Flashcards", source := "CSV Import",
            cards := [{ id := "2", question := "q2", answer := "a2" }],
            createdAt := .importTime 0 } := rfl

/-- Claim C3 (amended): a defective data row — too few fields, or an empty
question or answer field after cleanup — contributes nothing and raises no
error: the row loop simply continues with the remaining rows. -/
theorem c3_amended_skip (ids : Nat → String) (qi ai : Nat) (line : String)
    (rest : List String) (i : Nat)
    (h : ((jsSplit ',' line).map parseField).length ≤ max qi ai ∨
         ((jsSplit ',' line).map parseField).getD qi "" = "" ∨
         ((jsSplit ',' line).map parseField).getD ai "" = "") :
    buildCards ids qi ai (line :: rest) i = buildCards ids qi ai rest (i + 1) := by
  simp only [buildCards]
  by_cases hlen : ((jsSplit ',' line).map parseField).length ≤ max qi ai
  · rw [if_pos hlen]
  · have hno : ¬(((jsSplit ',' line).map parseField).getD qi "" ≠ "" ∧
        ((jsSplit ',' line).map parseField).getD ai "" ≠ "") := by
      rcases h with h | h | h
      · exact absurd h hlen
      · exact fun hc => hc.1 h
      · exact fun hc => hc.2 h
    rw [if_neg hlen, if_neg hno]

/-- Witness for `c3_amended_skip` at the short row of the C3
counterexample file. -/
theorem c3_witness :
    buildCards (fun n => toString n) 0 1 ["onlyone", "q2,a2"] 1 =
      buildCards (fun n => toString n) 0 1 ["q2,a2"] 2 :=
  c3_amended_skip (fun n => toString n) 0 1 "onlyone" ["q2,a2"] 1 (Or.inl (by decide))

/-- Claim C4, counterexample: structured import of
`{"cards":[{"question":"Q"}]}` fails with `Invalid card at index 0: missing
question or answer` — the message carries the 0-based array index 0 and
contains no `1`, so it does not identify a 1-based position. -/
theorem c4_counterexample :
    importJSONData 0 (fun _ => "u")
        (.obj [("cards", .arr [.obj [("question", .str "Q")]])]) =
      .error "Invalid card at index 0: missing question or answer" ∧
    containsSubS "1" "Invalid card at index 0: missing question or answer" = false :=
  ⟨rfl, rfl⟩

/-- Claim C4 (amended): a card record missing its question or answer field
fails validation with a message identifying the 0-based array
index (the number of records preceding it), not a 1-based position. -/
theorem c4_amended_zero_based (ids : Nat → String) (cs : List JValue) (n : Nat)
    (card : JValue) (rest : List JValue)
    (hok : ∀ c ∈ cs, cardOK c = true) (hbad : cardOK card = false) :
    validateCards ids (cs ++ card :: rest) n = .error (invalidCardMsg (n + cs.length)) := by
  revert hok
  induction cs generalizing n with
  | nil =>
    intro _
    simp [validateCards, hbad]
  | cons c cs ih =>
    intro hok
    have hc : cardOK c = true := hok c (List.mem_cons_self c cs)
    simp only [List.cons_append, validateCards, hc, if_true]
    rw [List.append_eq, ih (n + 1) (fun x hx => hok x (List.mem_cons_of_mem c hx))]
    have harith : n + 1 + cs.length = n + (cs.length + 1) := by omega
    simp [harith]

/-- Witness for `c4_amended_zero_based` at the record of the C4
counterexample. -/
theorem c4_witness :
    validateCards (fun _ => "u") [.obj [("question", .str "Q")]] 0 =
      .error (invalidCardMsg 0) := by
  have h := c4_amended_zero_based (fun _ => "u") [] 0
    (.obj [("question", .str "Q")]) [] (fun c hc => absurd hc (List.not_mem_nil c)) rfl
  simpa using h

/-- Claim C5, counterexample: structured import of `{"cards":[]}` succeeds
with an empty cards sequence — the JSON importer has no
zero-valid-records failure. -/
theorem c5_counterexample :
    importJSONData 0 (fun _ => "u") (.obj [("cards", .arr [])]) =
      .ok { title := "Imported JSON Flashcards", source := "JSON Import",
            cards := [], createdAt := .importTime 0 } := rfl

/-- Claim C5 (amended): only the tabular importer guards against zero
accepted rows: a successful CSV import always carries a non-empty cards
sequence (the structured importer can succeed with an empty one). -/
theorem c5_amended_csv_nonempty (now : Nat) (ids : Nat → String) (content : String)
    (s : FlashcardSet) (h : importCSVData now ids content = .ok s) :
    s.cards ≠ [] := by
  simp only [importCSVData] at h
  split at h
  · exact absurd h (by simp)
  · split at h
    · split at h
      · exact absurd h (by simp)
      · rename_i hemp
        injection h with h'
        subst h'
        intro hc
        have hc' : buildCards ids _ _ (List.drop 1 (csvLines content)) 1 = [] := hc
        exact hemp (by rw [hc']; rfl)
    · exact absurd h (by simp)

/-- Witness for `c5_amended_csv_nonempty` at a concrete successful
CSV import run. -/
theorem c5_witness : ([⟨"u", "q", "a"⟩] : List Flashcard) ≠ [] :=
  c5_amended_csv_nonempty 0 (fun _ => "u") "Question,Answer\nq,a"
    { title := "Imported CSV Flashcards", source := "CSV Import",
      cards := [⟨"u", "q", "a"⟩], createdAt := .importTime 0 } rfl

/-- Claim C7, counterexample: structured import of a file carrying
`createdAt` `2024-01-01T00:00:00.000Z`, run with the clock at 5, produces
a Collection whose `createdAt` is built from the value in the file, not from
the import-time clock. -/
theorem c7_counterexample :
    importJSONData 5 (fun _ => "u")
        (.obj [("cards", .arr [.obj [("question", .str "Q"), ("answer", .str "A")]]),
               ("createdAt", .str "2024-01-01T00:00:00.000Z")]) =
      .ok { title := "Imported JSON Flashcards", source := "JSON Import",
            cards := [{ id := "u", question := "Q", answer := "A" }],
            createdAt := .ofValue (.str "2024-01-01T00:00:00.000Z") } ∧
    JDate.ofValue (.str "2024-01-01T00:00:00.000Z") ≠ JDate.importTime 5 :=
  ⟨rfl, fun h => JDate.noConfusion h⟩

/-- Claim C7 (amended): the structured importer stamps `createdAt` with
the import-time clock only when the `createdAt` field of the file is absent (or
falsy); a truthy `createdAt` in the file is taken from the file content. -/
theorem c7_amended_createdAt (now : Nat) (ids : Nat → String) (data : JValue)
    (s : FlashcardSet) (h : importJSONData now ids data = .ok s) :
    (∀ v, getField data "createdAt" = some v → truthy v = true →
      s.createdAt = .ofValue v) ∧
    (getField data "createdAt" = none → s.createdAt = .importTime now) := by
  simp only [importJSONData] at h
  split at h
  · split at h
    · exact absurd h (by simp)
    · injection h with h'
      subst h'
      constructor
      · intro v hv htr
        simp [hv, htr]
      · intro hv
        simp [hv]
  · exact absurd h (by simp)

/-- Witness for `c7_amended_createdAt` at the C7 input with the
`createdAt` field absent. -/
theorem c7_witness :
    JDate.importTime 3 = JDate.importTime 3 :=
  (c7_amended_createdAt 3 (fun _ => "u")
    (.obj [("cards", .arr [])])
    { title := "Imported JSON Flashcards", source := "JSON Import",
      cards := [], createdAt := .importTime 3 } rfl).2 rfl

/-- Claim C8, counterexample: the structured importer accepts a card whose
question is the whitespace-only string `" "` (truthy in JavaScript) and
emits it unchanged, so the resulting Collection carries a question that is
empty after trimming. -/
theorem c8_counterexample :
    importJSONData 0 (fun _ => "u")
        (.obj [("cards", .arr [.obj [("question", .str " "), ("answer", .str "A")]])]) =
      .ok { title := "Imported JSON Flashcards", source := "JSON Import",
            cards := [{ id := "u", question := " ", answer := "A" }],
            createdAt := .importTime 0 } ∧
    jsTrimS " " = "" := ⟨rfl, rfl⟩

/-- Claim C8 (amended): the trim-non-empty invariant holds for the tabular
importer (every card of a successful CSV import has question and answer
non-empty after trimming) while the structured importer only requires
truthiness and can emit whitespace-only texts. -/
theorem c8_amended_csv_trim (now : Nat) (ids : Nat → String) (content : String)
    (s : FlashcardSet) (h : importCSVData now ids content = .ok s) :
    ∀ c ∈ s.cards, jsTrimS c.question ≠ "" ∧ jsTrimS c.answer ≠ "" := by
  simp only [importCSVData] at h
  split at h
  · exact absurd h (by simp)
  · split at h
    · split at h
      · exact absurd h (by simp)
      · injection h with h'
        subst h'
        intro c hc
        exact buildCards_trim_ne ids _ _ _ _ c hc
    · exact absurd h (by simp)

/-- Witness for `c8_amended_csv_trim` at a concrete successful CSV run
and its single card. -/
theorem c8_witness : jsTrimS "q" ≠ "" ∧ jsTrimS "a" ≠ "" :=
  c8_amended_csv_trim 0 (fun _ => "u") "Question,Answer\nq,a"
    { title := "Imported CSV Flashcards", source := "CSV Import",
      cards := [⟨"u", "q", "a"⟩], createdAt := .importTime 0 } rfl
    ⟨"u", "q", "a"⟩ (List.mem_singleton.mpr rfl)

/-- Claim C6: on every submit attempt the caller-visible loading signal
ends `false` — cleared on every exit path once asserted — and on
precondition failures (empty/whitespace input, absent or blank credential)
it is never asserted at all. -/
theorem c6_loading (env : SubmitEnv) :
    finalLoading (handleSubmit env) = false ∧
    ((jsTrimS env.input = "" ∨ apiKeyPresent env.apiKey = false) →
      assertsLoading (handleSubmit env) = false) := by
  constructor
  · simp only [handleSubmit]
    split
    · rfl
    · split
      · rfl
      · simp only [finalLoading, List.foldl_cons, List.foldl_append, List.foldl_nil]
  · intro h
    by_cases h1 : jsTrimS env.input = ""
    · simp [handleSubmit, h1, assertsLoading]
    · have h2 : apiKeyPresent env.apiKey = false := h.resolve_left h1
      simp [handleSubmit, h1, h2, assertsLoading]

/-- Witness for `c6_loading` at a concrete whitespace-only input. -/
theorem c6_witness :
    finalLoading (handleSubmit ⟨true, " ", some "k", false, .ok ⟨"t", "c"⟩, .ok [], 0⟩) = false ∧
    assertsLoading (handleSubmit ⟨true, " ", some "k", false, .ok ⟨"t", "c"⟩, .ok [], 0⟩) = false :=
  ⟨(c6_loading _).1, (c6_loading _).2 (Or.inl rfl)⟩

/-- Claim C9, counterexample: a fetch failure and an extraction failure
with the same underlying message `boom` both surface as exactly
`Error: boom` — the single generic prefix does not distinguish the two
collaborator failure kinds. -/
theorem c9_counterexample :
    errorsOf (handleSubmit
        { isUrlInput := true, input := "https://en.wikipedia.org/wiki/Cat",
          apiKey := some "k", useMockMode := false,
          fetchResult := .error (.errObj "boom"), extractResult := .ok [], now := 0 }) =
      ["Error: boom"] ∧
    errorsOf (handleSubmit
        { isUrlInput := false, input := "text",
          apiKey := some "k", useMockMode := false,
          fetchResult := .ok ⟨"t", "c"⟩, extractResult := .error (.errObj "boom"), now := 0 }) =
      ["Error: boom"] := ⟨rfl, rfl⟩

/-- Claim C9 (amended): every exception thrown by the fetcher or the
extraction service is caught and surfaced as the single error message
`Error: <raw message>` (with `Unknown error occurred` for non-`Error`
throws) — the raw message is preserved, but the prefix is the same generic
one for fetch, extraction and generic failures. -/
theorem c9_amended_uniform (env : SubmitEnv) (e : Thrown)
    (h1 : jsTrimS env.input ≠ "") (h2 : apiKeyPresent env.apiKey = true)
    (h : (env.isUrlInput = true ∧ isValidWikipediaUrl env.input = true ∧
            env.fetchResult = .error e) ∨
         ((env.isUrlInput = false ∨
             (env.isUrlInput = true ∧ isValidWikipediaUrl env.input = true ∧
              ∃ w, env.fetchResult = .ok w)) ∧
          env.extractResult = .error e)) :
    errorsOf (handleSubmit env) = ["Error: " ++ thrownMessage e] := by
  rcases h with ⟨hurl, hvalid, hfetch⟩ | ⟨hmode, hext⟩
  · simp [handleSubmit, submitBody, errorsOf, h1, h2, hurl, hvalid, hfetch]
  · rcases hmode with hmode | ⟨hurl, hvalid, w, hfetch⟩
    · simp [handleSubmit, submitBody, errorsOf, h1, h2, hmode, hext]
    · simp [handleSubmit, submitBody, errorsOf, h1, h2, hurl, hvalid, hfetch, hext]

/-- Witness for `c9_amended_uniform` at a concrete extraction failure in
free-text mode. -/
theorem c9_witness :
    errorsOf (handleSubmit
        { isUrlInput := false, input := "text", apiKey := some "k",
          useMockMode := false, fetchResult := .ok ⟨"t", "c"⟩,
          extractResult := .error (.errObj "x"), now := 0 }) =
      ["Error: " ++ thrownMessage (.errObj "x")] :=
  c9_amended_uniform _ (.errObj "x") (by decide) rfl (Or.inr ⟨Or.inl rfl, rfl⟩)

/-- Claim C10, counterexample: two runs of the tabular importer on the
identical file text, at the same clock reading but with different fresh-id
draws (both possible outcomes of `uuidv4`), produce Collections that
differ in their cards (the ids differ) — not only in timestamps. -/
theorem c10_counterexample :
    importCSVData 0 (fun _ => "a") "Question,Answer\nq,a" =
      .ok { title := "Imported CSV Flashcards", source := "CSV Import",
            cards := [{ id := "a", question := "q", answer := "a" }],
            createdAt := .importTime 0 } ∧
    importCSVData 0 (fun _ => "b") "Question,Answer\nq,a" =
      .ok { title := "Imported CSV Flashcards", source := "CSV Import",
            cards := [{ id := "b", question := "q", answer := "a" }],
            createdAt := .importTime 0 } ∧
    ([{ id := "a", question := "q", answer := "a" }] : List Flashcard) ≠
      [{ id := "b", question := "q", answer := "a" }] :=
  ⟨rfl, rfl, by decide⟩

theorem buildCards_isEmpty_eq (ids₁ ids₂ : Nat → String) (qi ai : Nat)
    (rows : List String) (i : Nat) :
    (buildCards ids₁ qi ai rows i).isEmpty = (buildCards ids₂ qi ai rows i).isEmpty := by
  have h := buildCards_length_eq ids₁ ids₂ qi ai rows i
  cases h₁ : buildCards ids₁ qi ai rows i with
  | nil =>
    cases h₂ : buildCards ids₂ qi ai rows i with
    | nil => rfl
    | cons b m => rw [h₁, h₂] at h; simp at h
  | cons a l =>
    cases h₂ : buildCards ids₂ qi ai rows i with
    | nil => rw [h₁, h₂] at h; simp at h
    | cons b m => rfl

/-- Claim C10 (amended): re-running either importer on the identical
input yields results agreeing in success/failure and error message, and on
success the two Collections are equal in `title`, `source`, and the
question/answer content of their cards; the freshly drawn ids (and the
timestamps) are the only parts allowed to differ. -/
theorem c10_amended_reimport (content : String) (data : JValue) (now₁ now₂ : Nat)
    (ids₁ ids₂ : Nat → String) :
    (∀ s₁ s₂, importCSVData now₁ ids₁ content = .ok s₁ →
      importCSVData now₂ ids₂ content = .ok s₂ →
      s₁.title = s₂.title ∧ s₁.source = s₂.source ∧
      s₁.cards.map cardText = s₂.cards.map cardText) ∧
    (∀ e, importCSVData now₁ ids₁ content = .error e →
      importCSVData now₂ ids₂ content = .error e) ∧
    (∀ s₁ s₂, importJSONData now₁ ids₁ data = .ok s₁ →
      importJSONData now₂ ids₂ data = .ok s₂ →
      s₁.title = s₂.title ∧ s₁.source = s₂.source ∧
      s₁.cards.map cardText = s₂.cards.map cardText) ∧
    (∀ e, importJSONData now₁ ids₁ data = .error e →
      importJSONData now₂ ids₂ data = .error e) := by
  refine ⟨?_, ?_, ?_, ?_⟩
  · intro s₁ s₂ h₁ h₂
    simp only [importCSVData] at h₁ h₂
    by_cases hlen : (csvLines content).length < 2
    · rw [if_pos hlen] at h₁; simp at h₁
    · rw [if_neg hlen] at h₁ h₂
      cases hq : (csvHeaders content).findIdx? (· == "question") with
      | none =>
        cases ha : (csvHeaders content).findIdx? (· == "answer") with
        | none => rw [hq, ha] at h₁; simp at h₁
        | some ai => rw [hq, ha] at h₁; simp at h₁
      | some qi =>
        cases ha : (csvHeaders content).findIdx? (· == "answer") with
        | none => rw [hq, ha] at h₁; simp at h₁
        | some ai =>
          simp only [hq, ha] at h₁ h₂
          by_cases hemp : (buildCards ids₁ qi ai ((csvLines content).drop 1) 1).isEmpty = true
          · rw [if_pos hemp] at h₁; simp at h₁
          · have hemp₂ : ¬(buildCards ids₂ qi ai ((csvLines content).drop 1) 1).isEmpty = true := by
              intro hc
              exact hemp (by rw [buildCards_isEmpty_eq ids₁ ids₂ qi ai _ 1]; exact hc)
            rw [if_neg hemp] at h₁
            rw [if_neg hemp₂] at h₂
            injection h₁ with e₁
            injection h₂ with e₂
            subst e₁
            subst e₂
            exact ⟨rfl, rfl, buildCards_map_cardText ids₁ ids₂ qi ai _ 1⟩
  · intro e h₁
    simp only [importCSVData] at h₁
    by_cases hlen : (csvLines content).length < 2
    · rw [if_pos hlen] at h₁
      simp only [importCSVData, if_pos hlen]
      exact h₁
    · rw [if_neg hlen] at h₁
      cases hq : (csvHeaders content).findIdx? (· == "question") with
      | none =>
        cases ha : (csvHeaders content).findIdx? (· == "answer") with
        | none =>
          simp only [hq, ha] at h₁
          simp only [importCSVData, if_neg hlen, hq, ha]
          exact h₁
        | some ai =>
          simp only [hq, ha] at h₁
          simp only [importCSVData, if_neg hlen, hq, ha]
          exact h₁
      | some qi =>
        cases ha : (csvHeaders content).findIdx? (· == "answer") with
        | none =>
          simp only [hq, ha] at h₁
          simp only [importCSVData, if_neg hlen, hq, ha]
          exact h₁
        | some ai =>
          simp only [hq, ha] at h₁
          by_cases hemp : (buildCards ids₁ qi ai ((csvLines content).drop 1) 1).isEmpty = true
          · have hemp₂ : (buildCards ids₂ qi ai ((csvLines content).drop 1) 1).isEmpty = true := by
              rw [← buildCards_isEmpty_eq ids₁ ids₂ qi ai _ 1]; exact hemp
            rw [if_pos hemp] at h₁
            simp only [importCSVData, if_neg hlen, hq, ha, if_pos hemp₂]
            exact h₁
          · rw [if_neg hemp] at h₁; simp at h₁
  · intro s₁ s₂ h₁ h₂
    cases hc : getField data "cards" with
    | none => simp [importJSONData, hc] at h₁
    | some v =>
      cases v with
      | arr cardsV =>
        simp only [importJSONData, hc] at h₁ h₂
        cases hv₁ : validateCards ids₁ cardsV 0 with
        | error e₁ => rw [hv₁] at h₁; simp at h₁
        | ok l₁ =>
          cases hv₂ : validateCards ids₂ cardsV 0 with
          | error e₂ => rw [hv₂] at h₂; simp at h₂
          | ok l₂ =>
            rw [hv₁] at h₁
            rw [hv₂] at h₂
            injection h₁ with e₁
            injection h₂ with e₂
            subst e₁
            subst e₂
            exact ⟨rfl, rfl, (validateCards_agree ids₁ ids₂ cardsV 0).2 l₁ l₂ hv₁ hv₂⟩
      | null => simp [importJSONData, hc] at h₁
      | bool b => simp [importJSONData, hc] at h₁
      | num n => simp [importJSONData, hc] at h₁
      | str s => simp [importJSONData, hc] at h₁
      | obj fields => simp [importJSONData, hc] at h₁
  · intro e h₁
    cases hc : getField data "cards" with
    | none => simp [importJSONData, hc] at h₁ ⊢; exact h₁
    | some v =>
      cases v with
      | arr cardsV =>
        simp only [importJSONData, hc] at h₁ ⊢
        cases hv₁ : validateCards ids₁ cardsV 0 with
        | error e₁ =>
          rw [hv₁] at h₁
          rw [(validateCards_agree ids₁ ids₂ cardsV 0).1 e₁ hv₁]
          exact h₁
        | ok l₁ => rw [hv₁] at h₁; simp at h₁
      | null => simp [importJSONData, hc] at h₁ ⊢; exact h₁
      | bool b => simp [importJSONData, hc] at h₁ ⊢; exact h₁
      | num n => simp [importJSONData, hc] at h₁ ⊢; exact h₁
      | str s => simp [importJSONData, hc] at h₁ ⊢; exact h₁
      | obj fields => simp [importJSONData, hc] at h₁ ⊢; exact h₁

/-- Witness for `c10_amended_reimport` on two concrete CSV runs with
different fresh-id draws. -/
theorem c10_witness :
    ("Imported CSV Flashcards" : String) = "Imported CSV Flashcards" ∧
    ("CSV Import" : String) = "CSV Import" ∧
    ([{ id := "a", question := "q", answer := "a" }] : List Flashcard).map cardText =
      ([{ id := "b", question := "q", answer := "a" }] : List Flashcard).map cardText :=
  (c10_amended_reimport "Question,Answer\nq,a" (.obj [("cards", .arr [])]) 0 0
      (fun _ => "a") (fun _ => "b")).1
    { title := "Imported CSV Flashcards", source := "CSV Import",
      cards := [{ id := "a", question := "q", answer := "a" }], createdAt := .importTime 0 }
    { title := "Imported CSV Flashcards", source := "CSV Import",
      cards := [{ id := "b", question := "q", answer := "a" }], createdAt := .importTime 0 }
    rfl rfl
